import Mathlib

/-!
Shallow embedding of `api/server/controllers/assistants/helpers.js`:
version resolution (`getCurrentVersion`), client resolution
(`getOpenAIClient`), the direct assistant lister (`listAssistants`), the
Azure multi-deployment lister (`listAssistantsForAzure`) and the top-level
fetch (`fetchAssistants`).

External collaborators (the configuration cache, the two client
initializers and the vendor SDK list call) are modelled as function
parameters, as the spec treats them as opaque.  The endpoint identifier
constants and the hard-coded default version table come from
`librechat-data-provider`, which is not part of the excerpt; they are
modelled from the spec (two distinct endpoint tags, an abstract
per-endpoint table passed as a parameter).

JavaScript runtime behaviour is made explicit: absent values are `Option`,
thrown exceptions are `Except.error` carrying a `JsError` (a `TypeError`
or a plain `Error` with its message), string operations follow the JS
`lastIndexOf` / `substring` / `startsWith` semantics used by the source.
-/

/-- A thrown JavaScript exception: either a runtime `TypeError` or an
explicitly constructed `Error` with its message. -/
inductive JsError where
  | typeError (msg : String)
  | error (msg : String)
deriving DecidableEq, Repr

deriving instance DecidableEq for Except

set_option synthInstance.maxSize 4000

/-- JS `String.prototype.lastIndexOf` restricted to the use in the source
(`req.baseUrl.lastIndexOf('/v')`), returning `none` for `-1`.  The result
is the largest index at which `pat` occurs in `s`. -/
def jsLastIndexOf (s pat : String) : Option Nat :=
  ((List.range (s.length + 1)).filter
    (fun i => decide ((s.toList.drop i).take pat.length = pat.toList))).getLast?

/-- JS `String.prototype.substring s start stop` for `start ≤ stop`:
the characters from position `start` (inclusive) to `stop` (exclusive),
clamped to the length of the string. -/
def jsSubstring (s : String) (start stop : Nat) : String :=
  String.mk ((s.toList.drop start).take (stop - start))

/-- JS `String.prototype.startsWith`. -/
def jsStartsWith (s pat : String) : Bool :=
  decide (s.toList.take pat.length = pat.toList)

/-- Truthiness of an optional JS string: `undefined`/`null` and the empty
string are falsy. -/
def truthyOptStr : Option String → Bool
  | none => false
  | some s => decide (s ≠ "")

/-- The JS nullish-coalescing operator `a ?? b` on optional values. -/
def jsNullish {α : Type} : Option α → Option α → Option α
  | some a, _ => some a
  | none, b => b

/-- A JS value appearing in a query string position: a string or a number
(the source only ever defaults `limit` to the number `100` and `order` to
the string `desc`). -/
inductive JsVal where
  | str (s : String)
  | num (n : Nat)
deriving DecidableEq, Repr

/-- The request-body fields read or written by the source: `version`,
`endpoint` and `model`. -/
structure ReqBody where
  version : Option String := none
  endpoint : Option String := none
  model : Option String := none
deriving DecidableEq, Repr

/-- The request-query fields read by the source: `limit`, `order`,
`after`, `before` and `endpoint`. -/
structure ReqQuery where
  limit : Option JsVal := none
  order : Option JsVal := none
  after : Option JsVal := none
  before : Option JsVal := none
  endpoint : Option String := none
deriving DecidableEq, Repr

/-- The parts of the Express request the source reads: `baseUrl`, `body`
and `query`. -/
structure Request where
  baseUrl : String
  body : ReqBody := {}
  query : ReqQuery := {}
deriving DecidableEq, Repr

/-- Modelled from the spec: the endpoint identifier for the direct
provider endpoint (`EModelEndpoint.assistants` of
`librechat-data-provider`, which is outside the excerpt). -/
def EModelEndpoint.assistants : String := "assistants"

/-- Modelled from the spec: the endpoint identifier for the
cloud-vendor-hosted endpoint (`EModelEndpoint.azureAssistants` of
`librechat-data-provider`, which is outside the excerpt). -/
def EModelEndpoint.azureAssistants : String := "azureAssistants"

/-- Instrumented embedding of `getCurrentVersion` (helpers.js lines
13-30).  `cache` models the composite lookup
`cachedEndpointsConfig?.[endpoint]?.version` of the configuration cache
and `dflt` models `defaultAssistantsVersion[endpoint]` (the hard-coded
table of `librechat-data-provider`, outside the excerpt, hence a
parameter).  Both yield the numeric version or `none` when absent; an
absent value interpolates as the string `undefined` in the template
literal of line 22.  The second component records whether the
configuration cache was read.  A `null` version reaching line 26 makes
`version.length` throw a `TypeError`; the explicit `Error` of line 27 is
thrown only when the `&&`-condition of line 26 holds. -/
def getCurrentVersionT (req : Request) (endpoint : Option String)
    (cache dflt : String → Option Nat) : Except JsError String × Bool :=
  let version : Option String :=
    match jsLastIndexOf req.baseUrl "/v" with
    | some i => some (jsSubstring req.baseUrl (i + 1) (i + 3))
    | none => none
  let version : Option String :=
    if version = none ∧ truthyOptStr req.body.version = true then
      some ("v" ++ req.body.version.getD "")
    else version
  let readsCache : Bool := version = none ∧ truthyOptStr endpoint = true
  let version : Option String :=
    if version = none ∧ truthyOptStr endpoint = true then
      some ("v" ++ (match cache (endpoint.getD "") with
        | some n => toString n
        | none => match dflt (endpoint.getD "") with
          | some n => toString n
          | none => "undefined"))
    else version
  match version with
  | none => (.error (.typeError "Cannot read properties of null"), readsCache)
  | some v =>
    if jsStartsWith v "v" = false ∧ v.length ≠ 2 then
      (.error (.error ("[" ++ req.baseUrl ++ "] Invalid version: " ++ v)), readsCache)
    else (.ok v, readsCache)

/-- `getCurrentVersion`: the thrown-or-returned version token, without the
cache-read instrumentation. -/
def getCurrentVersion (req : Request) (endpoint : Option String)
    (cache dflt : String → Option Nat) : Except JsError String :=
  (getCurrentVersionT req endpoint cache dflt).1

/-- The query object passed to the vendor list call
(`{limit, order, after, before}` of helpers.js lines 137 and 139). -/
structure FetchQuery where
  limit : JsVal
  order : JsVal
  after : Option JsVal := none
  before : Option JsVal := none
deriving DecidableEq, Repr

/-- The vendor SDK client surface the source uses:
`openai.beta.assistants.list`. -/
structure OpenAI (γ : Type) where
  list : FetchQuery → γ

/-- What a client initializer resolves to: an object whose `openai` field
is the vendor client (`const ⟨openai⟩ = await getOpenAIClient ...`). -/
structure InitResult (γ : Type) where
  openai : OpenAI γ

/-- Instrumented embedding of `getOpenAIClient` (helpers.js lines
119-134).  `initC` and `initAz` model the two delegated initializers
(`initializeClient` and `initAzureClient`); both receive the request (the
source hands them `req`, `res`, `version`, `endpointOption`,
`initAppClient`; only `req` and `version` are relevant here) and are
opaque.  `Option` in the result models the `undefined` fallthrough for
unrecognized endpoints.  The second component records whether the
configuration cache was read. -/
def getOpenAIClientT {γ : Type} (req : Request) (overrideEndpoint : Option String)
    (cache dflt : String → Option Nat)
    (initC initAz : Request → String → InitResult γ) :
    Except JsError (Option (InitResult γ)) × Bool :=
  let endpoint := jsNullish overrideEndpoint (jsNullish req.body.endpoint req.query.endpoint)
  match getCurrentVersionT req endpoint cache dflt with
  | (.error e, r) => (.error e, r)
  | (.ok version, r) =>
    if truthyOptStr endpoint = false then
      (.error (.error ("[" ++ req.baseUrl ++ "] Endpoint is required")), r)
    else if endpoint = some EModelEndpoint.assistants then
      (.ok (some (initC req version)), r)
    else if endpoint = some EModelEndpoint.azureAssistants then
      (.ok (some (initAz req version)), r)
    else (.ok none, r)

/-- `getOpenAIClient` without the cache-read instrumentation. -/
def getOpenAIClient {γ : Type} (req : Request) (overrideEndpoint : Option String)
    (cache dflt : String → Option Nat)
    (initC initAz : Request → String → InitResult γ) :
    Except JsError (Option (InitResult γ)) :=
  (getOpenAIClientT req overrideEndpoint cache dflt initC initAz).1

/-- Embedding of `listAssistants` (helpers.js lines 46-49).  The
destructuring `const ⟨openai⟩ = await getOpenAIClient(⟨req, res, version⟩)`
throws a `TypeError` when the client resolution falls through to
`undefined`.  Note the source passes no `overrideEndpoint`, and
`getOpenAIClient` does not take the `version` it is handed (it recomputes
it), so the `version` argument is unused. -/
def listAssistants {γ : Type} (req : Request) (version : String)
    (query : FetchQuery) (cache dflt : String → Option Nat)
    (initC initAz : Request → String → InitResult γ) : Except JsError γ :=
  let _ := version
  match getOpenAIClient req none cache dflt initC initAz with
  | .error e => .error e
  | .ok none => .error (.typeError "Cannot destructure property openai of undefined")
  | .ok (some r) => .ok (r.openai.list query)

/-- A per-model entry of a group's model table (`TAzureModelConfig`): the
vendor deployment identifier it maps to, when configured. -/
structure ModelConfig where
  deploymentName : Option String := none
deriving DecidableEq, Repr

/-- One Azure deployment group (`TAzureGroup`): the group's designated
default deployment name and its ordered model table
(`Object.entries(group.models)` preserves insertion order, so the table is
a list of name/config pairs; an absent or empty `models` object is the
empty list, on which the loop throws exactly as the source does). -/
structure AzureGroup where
  deploymentName : Option String := none
  models : List (String × ModelConfig) := []
deriving DecidableEq, Repr

/-- An assistant record: its `id`, its `model` field (a deployment
identifier in the Azure case) and its remaining fields, kept opaque as a
key/value list (the spread `{...assistant, model}` copies them
unchanged). -/
structure Assistant where
  id : String
  model : String
  extra : List (String × String) := []
deriving DecidableEq, Repr

/-- The paginated list envelope
`{first_id, last_id, object, has_more, data}`; `first_id`/`last_id` are
`none` when the boundary access `data[...]?.id` yields `undefined`. -/
structure ListResponse where
  first_id : Option String
  last_id : Option String
  object : String
  has_more : Bool
  data : List Assistant
deriving DecidableEq, Repr

/-- A vendor SDK page as the source consumes it: the Azure lister reads
its `data` array, the top-level fetch destructures its `body` (the raw
envelope). -/
structure VendorPage where
  data : List Assistant := []
  body : ListResponse := { first_id := none, last_id := none, object := "list", has_more := false, data := [] }
deriving DecidableEq, Repr

/-- The remapping of one assistant record for one group (helpers.js lines
90-107): if the raw `model` equals the group's default `deploymentName`,
take the first model name of the table; else take the first table entry
whose `deploymentName` matches; else fall back to the first model name.
The `tuples.head?` of `none` cannot occur when called from the lister
(the fan-out loop throws first on an empty table, mirroring
`currentModelTuples[0][0]`). -/
def remapAssistant (grp : AzureGroup) (tuples : List (String × ModelConfig))
    (assistant : Assistant) : Assistant :=
  match tuples.head? with
  | none => assistant
  | some (firstModel, _) =>
    if grp.deploymentName = some assistant.model then
      { assistant with model := firstModel }
    else
      match tuples.find? (fun t => decide (t.2.deploymentName = some assistant.model)) with
      | some (model, _) => { assistant with model := model }
      | none => { assistant with model := firstModel }

/-- The fan-out loop of `listAssistantsForAzure` (helpers.js lines
75-86): for each configured group name, resolve the group (a missing
group makes `Object.entries(group?.models)` throw a `TypeError`; an empty
table makes `currentModelTuples[0][0]` throw one), mutate
`req.body.model` to the group's first model name and initiate one
`listAssistants` call, pushing its promise.  Returns the groups, their
model tables and the initiated calls, index-aligned, with one promise per
group in group order; all promises exist before any result is
consumed. -/
def azureLoop (req : Request) (version : String)
    (groupMap : String → Option AzureGroup)
    (cache dflt : String → Option Nat)
    (initC initAz : Request → String → InitResult VendorPage)
    (query : FetchQuery) :
    List String →
    Except JsError
      (List AzureGroup × List (List (String × ModelConfig)) × List (Except JsError VendorPage))
  | [] => .ok ([], [], [])
  | groupName :: rest =>
    match groupMap groupName with
    | none => .error (.typeError "Cannot convert undefined to object")
    | some group =>
      let currentModelTuples := group.models
      match currentModelTuples.head? with
      | none => .error (.typeError "Cannot read properties of undefined")
      | some (firstModel, _) =>
        let req' := { req with body := { req.body with model := some firstModel } }
        let promise := listAssistants req' version query cache dflt initC initAz
        match azureLoop req' version groupMap cache dflt initC initAz query rest with
        | .error e => .error e
        | .ok (gs, ts, ps) => .ok (group :: gs, currentModelTuples :: ts, promise :: ps)

/-- `Promise.all` over the fan-out's promises: all results, or the
rejection of a rejected promise. -/
def promiseAll : List (Except JsError VendorPage) → Except JsError (List VendorPage)
  | [] => .ok []
  | .error e :: _ => .error e
  | .ok p :: rest =>
    match promiseAll rest with
    | .error e => .error e
    | .ok ps => .ok (p :: ps)

/-- The merge step of `listAssistantsForAzure` (helpers.js lines 89-108):
`resolvedQueries.flatMap((res, i) => res.data.map(...))`, index-aligned
with `groups` and `groupModelTuples`. -/
def remapAll :
    List VendorPage → List AzureGroup → List (List (String × ModelConfig)) → List Assistant
  | p :: ps, g :: gs, t :: ts => p.data.map (remapAssistant g t) ++ remapAll ps gs ts
  | _, _, _ => []

/-- Embedding of `listAssistantsForAzure` (helpers.js lines 66-117):
fan out one listing call per configured group, await them all, remap and
flatten the per-group data in group order, and wrap it in the synthetic
envelope with `object: list`, `has_more: false` and the boundary ids
`data[0]?.id` / `data[data.length - 1]?.id`. -/
def listAssistantsForAzure (req : Request) (version : String)
    (assistantGroups : List String) (groupMap : String → Option AzureGroup)
    (cache dflt : String → Option Nat)
    (initC initAz : Request → String → InitResult VendorPage)
    (query : FetchQuery) : Except JsError ListResponse :=
  match azureLoop req version groupMap cache dflt initC initAz query assistantGroups with
  | .error e => .error e
  | .ok (groups, groupModelTuples, promises) =>
    match promiseAll promises with
    | .error e => .error e
    | .ok resolvedQueries =>
      let data := remapAll resolvedQueries groups groupModelTuples
      .ok { first_id := data.head?.map Assistant.id,
            last_id := data.getLast?.map Assistant.id,
            object := "list",
            has_more := false,
            data := data }

/-- The query object built by `fetchAssistants` (helpers.js lines
137, 139): destructuring with defaults `limit = 100`, `order = 'desc'`;
`after` and `before` pass through, absent when omitted. -/
def fetchQuery (q : ReqQuery) : FetchQuery :=
  { limit := q.limit.getD (.num 100),
    order := q.order.getD (.str "desc"),
    after := q.after,
    before := q.before }

/-- Instrumented embedding of `fetchAssistants` (helpers.js lines
136-152): resolve the version for the query-supplied endpoint, build the
query object, dispatch on the endpoint (the direct branch destructures
`body` from the vendor page, the Azure branch returns the merged
envelope, anything else leaves `body` undefined).  The Azure
configuration `req.app.locals[azureOpenAI]` is passed as
`assistantGroups`/`groupMap`.  The second component is the query object
handed to the downstream listing call. -/
def fetchAssistantsT (req : Request)
    (assistantGroups : List String) (groupMap : String → Option AzureGroup)
    (cache dflt : String → Option Nat)
    (initC initAz : Request → String → InitResult VendorPage) :
    Except JsError (Option ListResponse) × FetchQuery :=
  let endpoint := req.query.endpoint
  let query := fetchQuery req.query
  match getCurrentVersion req endpoint cache dflt with
  | .error e => (.error e, query)
  | .ok version =>
    if endpoint = some EModelEndpoint.assistants then
      match listAssistants req version query cache dflt initC initAz with
      | .error e => (.error e, query)
      | .ok page => (.ok (some page.body), query)
    else if endpoint = some EModelEndpoint.azureAssistants then
      match listAssistantsForAzure req version assistantGroups groupMap cache dflt initC initAz query with
      | .error e => (.error e, query)
      | .ok body => (.ok (some body), query)
    else (.ok none, query)

/-- `fetchAssistants` without the query instrumentation. -/
def fetchAssistants (req : Request)
    (assistantGroups : List String) (groupMap : String → Option AzureGroup)
    (cache dflt : String → Option Nat)
    (initC initAz : Request → String → InitResult VendorPage) :
    Except JsError (Option ListResponse) :=
  (fetchAssistantsT req assistantGroups groupMap cache dflt initC initAz).1

/-! Helper lemmas about the JS string operations and the version
resolver, shared by the claim theorems below. -/

theorem jsLastIndexOf_take {s : String} {i : Nat}
    (h : jsLastIndexOf s "/v" = some i) :
    (s.toList.drop i).take 2 = ['/', 'v'] := by
  have hmem := List.mem_of_getLast?_eq_some h
  have hfil := (List.mem_filter.mp hmem).2
  have := of_decide_eq_true hfil
  simpa using this

theorem jsStartsWith_of_lastIndexOf {s : String} {i : Nat}
    (h : jsLastIndexOf s "/v" = some i) :
    jsStartsWith (jsSubstring s (i + 1) (i + 3)) "v" = true := by
  have h2 := jsLastIndexOf_take h
  obtain ⟨rest, hrest⟩ : ∃ rest, s.toList.drop i = '/' :: 'v' :: rest := by
    cases hd : s.toList.drop i with
    | nil => rw [hd] at h2; simp at h2
    | cons a t =>
      cases t with
      | nil => rw [hd] at h2; simp at h2
      | cons b r =>
        rw [hd] at h2
        simp [List.take] at h2
        exact ⟨r, by simp [h2.1, h2.2]⟩
  have hdrop : s.toList.drop (i + 1) = 'v' :: rest := by
    have hcomm : s.toList.drop (i + 1) = (s.toList.drop i).drop 1 := by
      rw [List.drop_drop]
    rw [hcomm, hrest]
    rfl
  have hsub : jsSubstring s (i + 1) (i + 3) = String.mk (('v' :: rest).take 2) := by
    unfold jsSubstring
    rw [hdrop]
    have harith : i + 3 - (i + 1) = 2 := by omega
    rw [harith]
  rw [hsub]
  unfold jsStartsWith
  cases rest <;> simp [List.take, String.toList]

theorem jsStartsWith_v_append (s : String) :
    jsStartsWith ("v" ++ s) "v" = true := by
  unfold jsStartsWith
  have h : ("v" ++ s).toList = 'v' :: s.toList := by
    show ("v" ++ s).data = 'v' :: s.data
    rw [String.data_append]
    rfl
  rw [h]
  simp [List.take]

/-- Path precedence: when the base path contains `/v`, the version is the
two characters starting at the last occurrence, the request body and the
cache are not consulted, and no error is thrown (the token starts with
`v`, so the line-26 condition is false). -/
theorem getCurrentVersionT_path (req : Request) (endpoint : Option String)
    (cache dflt : String → Option Nat) (i : Nat)
    (h : jsLastIndexOf req.baseUrl "/v" = some i) :
    getCurrentVersionT req endpoint cache dflt =
      (.ok (jsSubstring req.baseUrl (i + 1) (i + 3)), false) := by
  have hsw := jsStartsWith_of_lastIndexOf h
  unfold getCurrentVersionT
  rw [h]
  simp [hsw]

/-- Body precedence: with no path version and a truthy body `version`
field, the version is `v` prepended to the body field, with no cache
read and no error. -/
theorem getCurrentVersionT_body (req : Request) (endpoint : Option String)
    (cache dflt : String → Option Nat)
    (hpath : jsLastIndexOf req.baseUrl "/v" = none)
    (hbody : truthyOptStr req.body.version = true) :
    getCurrentVersionT req endpoint cache dflt =
      (.ok ("v" ++ req.body.version.getD ""), false) := by
  unfold getCurrentVersionT
  rw [hpath]
  simp [hbody, jsStartsWith_v_append]

/-- Cache/default fallback: with no path or body version and a truthy
endpoint, the cache is read and the version is `v` prepended to the
cached number, the hard-coded default, or the string `undefined`; no
error is thrown because the token starts with `v`. -/
theorem getCurrentVersionT_cached (req : Request) (e : String)
    (cache dflt : String → Option Nat)
    (hpath : jsLastIndexOf req.baseUrl "/v" = none)
    (hbody : truthyOptStr req.body.version = false)
    (he : e ≠ "") :
    getCurrentVersionT req (some e) cache dflt =
      (.ok ("v" ++ (match cache e with
        | some n => toString n
        | none => match dflt e with
          | some n => toString n
          | none => "undefined")), true) := by
  have hte : truthyOptStr (some e) = true := by
    simp [truthyOptStr, he]
  unfold getCurrentVersionT
  rw [hpath]
  simp [hbody, hte, jsStartsWith_v_append]

/-- With no path version, no truthy body version and no truthy endpoint,
the version stays `null` and line 26 throws a `TypeError` reading
`null.length`; the cache is not read. -/
theorem getCurrentVersionT_null (req : Request) (endpoint : Option String)
    (cache dflt : String → Option Nat)
    (hpath : jsLastIndexOf req.baseUrl "/v" = none)
    (hbody : truthyOptStr req.body.version = false)
    (hend : truthyOptStr endpoint = false) :
    getCurrentVersionT req endpoint cache dflt =
      (.error (.typeError "Cannot read properties of null"), false) := by
  unfold getCurrentVersionT
  rw [hpath]
  simp [hbody, hend]

/-- With a truthy endpoint, version resolution always succeeds: every
token it can construct starts with `v`, so the line-26 `&&` condition
never holds. -/
theorem getCurrentVersionT_ok_of_truthy (req : Request) (endpoint : Option String)
    (cache dflt : String → Option Nat)
    (hend : truthyOptStr endpoint = true) :
    ∃ v b, getCurrentVersionT req endpoint cache dflt = (.ok v, b) := by
  cases hp : jsLastIndexOf req.baseUrl "/v" with
  | some i => exact ⟨_, _, getCurrentVersionT_path req endpoint cache dflt i hp⟩
  | none =>
    cases hb : truthyOptStr req.body.version with
    | true => exact ⟨_, _, getCurrentVersionT_body req endpoint cache dflt hp hb⟩
    | false =>
      obtain ⟨e, rfl⟩ : ∃ e, endpoint = some e := by
        cases endpoint with
        | none => simp [truthyOptStr] at hend
        | some e => exact ⟨e, rfl⟩
      have he : e ≠ "" := by
        simpa [truthyOptStr] using hend
      exact ⟨_, _, getCurrentVersionT_cached req e cache dflt hp hb he⟩

/-- The fan-out loop produces exactly one group record, one model table
and one initiated call per configured group name. -/
theorem azureLoop_lengths (version : String)
    (groupMap : String → Option AzureGroup)
    (cache dflt : String → Option Nat)
    (initC initAz : Request → String → InitResult VendorPage)
    (query : FetchQuery) :
    ∀ (names : List String) (r : Request)
      (gs : List AzureGroup) (ts : List (List (String × ModelConfig)))
      (ps : List (Except JsError VendorPage)),
      azureLoop r version groupMap cache dflt initC initAz query names = .ok (gs, ts, ps) →
      gs.length = names.length ∧ ts.length = names.length ∧ ps.length = names.length := by
  intro names
  induction names with
  | nil =>
    intro r gs ts ps h
    unfold azureLoop at h
    cases h
    simp
  | cons g rest ih =>
    intro r gs ts ps h
    unfold azureLoop at h
    dsimp only at h
    split at h
    · cases h
    · split at h
      · cases h
      · split at h
        · cases h
        · rename_i group firstModel cfg gs0 ts0 ps0 hrec
          cases h
          have hl := ih _ gs0 ts0 ps0 hrec
          simp [hl.1, hl.2.1, hl.2.2]

/-- The merge step is the concatenation, in group order, of each group's
remapped records. -/
theorem remapAll_eq_join :
    ∀ (ps : List VendorPage) (gs : List AzureGroup)
      (ts : List (List (String × ModelConfig))),
      remapAll ps gs ts =
        (List.zipWith (fun p gt => p.data.map (remapAssistant gt.1 gt.2)) ps (gs.zip ts)).flatten := by
  intro ps
  induction ps with
  | nil => intro gs ts; cases gs <;> cases ts <;> simp [remapAll]
  | cons p ps ih =>
    intro gs ts
    cases gs with
    | nil => cases ts <;> simp [remapAll]
    | cons g gs =>
      cases ts with
      | nil => simp [remapAll]
      | cons t ts => simp [remapAll, ih]

/-- When every page carries an empty `data` array, the merge is empty. -/
theorem remapAll_empty :
    ∀ (ps : List VendorPage) (gs : List AzureGroup)
      (lst : List (List (String × ModelConfig))),
      (∀ p ∈ ps, p.data = []) → remapAll ps gs lst = [] := by
  intro ps
  induction ps with
  | nil => intro gs lst _; cases gs <;> cases lst <;> simp [remapAll]
  | cons p ps ih =>
    intro gs lst hall
    cases gs with
    | nil => cases lst <;> simp [remapAll]
    | cons g gs =>
      cases lst with
      | nil => simp [remapAll]
      | cons t ts =>
        have hp : p.data = [] := hall p (by simp)
        have hrest : ∀ q ∈ ps, q.data = [] := fun q hq => hall q (by simp [hq])
        simp [remapAll, hp, ih gs ts hrest]

/-- C1: the claim says the resolver throws an InvalidVersion error
whenever the resolved token does not start with `v` or is not exactly two
characters, in particular when neither the cache nor the default table
supplies a version.  The code does not: in that scenario it returns the
token `vundefined` (every token it builds starts with `v`, and line 26
combines the two checks with `&&`, so the line-27 error is unreachable);
and when the token is still `null`, the guard itself throws a `TypeError`
reading `null.length`, not the InvalidVersion error. -/
theorem C1_validation_dead :
    getCurrentVersion { baseUrl := "/api/agents" } (some "endpointX")
      (fun _ => none) (fun _ => none) = .ok "vundefined" ∧
    getCurrentVersion { baseUrl := "/api/agents" } none
      (fun _ => none) (fun _ => none)
      = .error (.typeError "Cannot read properties of null") := by
  exact ⟨by decide, by decide⟩

/-- Concrete request with no derivable endpoint and no resolvable version,
used by the C2 theorems. -/
def reqNoEndpoint : Request := { baseUrl := "/api/agents" }

/-- Trivial client initializer used by concrete instantiations. -/
def initTrivial : Request → String → InitResult VendorPage :=
  fun _ _ => { openai := { list := fun _ => {} } }

/-- C2 counterexample: with no endpoint derivable and no version
resolvable from path or body, client resolution throws the `TypeError`
coming from version resolution (line 26 reads `null.length`), not the
EndpointRequired error the claim demands — though indeed without any
cache read. -/
theorem C2_counterexample :
    (getOpenAIClientT reqNoEndpoint none (fun _ => none) (fun _ => none)
        initTrivial initTrivial).2 = false ∧
    (getOpenAIClientT reqNoEndpoint none (fun _ => none) (fun _ => none)
        initTrivial initTrivial).1
      = .error (.typeError "Cannot read properties of null") ∧
    JsError.typeError "Cannot read properties of null"
      ≠ JsError.error "[/api/agents] Endpoint is required" := by
  exact ⟨rfl, rfl, by decide⟩

/-- C2 amended: when no endpoint identifier is derivable from override,
body or query, no configuration-cache read is ever performed; the thrown
error is EndpointRequired exactly when a version token was resolvable
from the path or the body, and otherwise version resolution throws a
`TypeError` before the endpoint check is reached. -/
theorem C2_endpoint_required {γ : Type} (req : Request)
    (overrideEndpoint : Option String)
    (cache dflt : String → Option Nat)
    (initC initAz : Request → String → InitResult γ)
    (hend : truthyOptStr (jsNullish overrideEndpoint
      (jsNullish req.body.endpoint req.query.endpoint)) = false) :
    (getOpenAIClientT req overrideEndpoint cache dflt initC initAz).2 = false ∧
    ((jsLastIndexOf req.baseUrl "/v" ≠ none ∨ truthyOptStr req.body.version = true) →
      (getOpenAIClientT req overrideEndpoint cache dflt initC initAz).1
        = .error (.error ("[" ++ req.baseUrl ++ "] Endpoint is required"))) ∧
    (jsLastIndexOf req.baseUrl "/v" = none → truthyOptStr req.body.version = false →
      (getOpenAIClientT req overrideEndpoint cache dflt initC initAz).1
        = .error (.typeError "Cannot read properties of null")) := by
  cases hp : jsLastIndexOf req.baseUrl "/v" with
  | some i =>
    have hv := getCurrentVersionT_path req (jsNullish overrideEndpoint
      (jsNullish req.body.endpoint req.query.endpoint)) cache dflt i hp
    simp [getOpenAIClientT, hv, hend, hp]
  | none =>
    cases hb : truthyOptStr req.body.version with
    | true =>
      have hv := getCurrentVersionT_body req (jsNullish overrideEndpoint
        (jsNullish req.body.endpoint req.query.endpoint)) cache dflt hp hb
      simp [getOpenAIClientT, hv, hend, hp, hb]
    | false =>
      have hv := getCurrentVersionT_null req (jsNullish overrideEndpoint
        (jsNullish req.body.endpoint req.query.endpoint)) cache dflt hp hb hend
      simp [getOpenAIClientT, hv, hend, hp, hb]

/-- C2 witness: a request whose path supplies a version and which names no
endpoint anywhere gets the EndpointRequired error with no cache read. -/
theorem C2_endpoint_required_witness :
    truthyOptStr (jsNullish none (jsNullish ({ baseUrl := "/api/v1" } : Request).body.endpoint
      ({ baseUrl := "/api/v1" } : Request).query.endpoint)) = false ∧
    ((getOpenAIClientT { baseUrl := "/api/v1" } none (fun _ => none) (fun _ => none)
        initTrivial initTrivial).2 = false ∧
     ((jsLastIndexOf ({ baseUrl := "/api/v1" } : Request).baseUrl "/v" ≠ none ∨
        truthyOptStr ({ baseUrl := "/api/v1" } : Request).body.version = true) →
      (getOpenAIClientT { baseUrl := "/api/v1" } none (fun _ => none) (fun _ => none)
        initTrivial initTrivial).1
        = .error (.error ("[" ++ ({ baseUrl := "/api/v1" } : Request).baseUrl ++ "] Endpoint is required"))) ∧
     (jsLastIndexOf ({ baseUrl := "/api/v1" } : Request).baseUrl "/v" = none →
        truthyOptStr ({ baseUrl := "/api/v1" } : Request).body.version = false →
      (getOpenAIClientT { baseUrl := "/api/v1" } none (fun _ => none) (fun _ => none)
        initTrivial initTrivial).1
        = .error (.typeError "Cannot read properties of null"))) :=
  ⟨by decide,
    C2_endpoint_required { baseUrl := "/api/v1" } none (fun _ => none) (fun _ => none)
      initTrivial initTrivial (by decide)⟩

/-- C3: version precedence path > body > cache > hard-coded default.
A path version (the two characters at the last `/v` of the base path) is
returned as-is for every body, cache and default table, with no cache
read; with no path version, a body version `2` yields `v2`; with neither,
a named endpoint takes `v` plus the cached per-endpoint version, or
failing that `v` plus the hard-coded per-endpoint default, reading the
cache. -/
theorem C3_version_precedence :
    (∀ (req : Request) (endpoint : Option String)
      (cache dflt : String → Option Nat) (i : Nat),
      jsLastIndexOf req.baseUrl "/v" = some i →
      getCurrentVersionT req endpoint cache dflt =
        (.ok (jsSubstring req.baseUrl (i + 1) (i + 3)), false)) ∧
    (∀ (req : Request) (endpoint : Option String)
      (cache dflt : String → Option Nat),
      jsLastIndexOf req.baseUrl "/v" = none →
      req.body.version = some "2" →
      getCurrentVersionT req endpoint cache dflt = (.ok "v2", false)) ∧
    (∀ (req : Request) (e : String) (cache dflt : String → Option Nat) (n : Nat),
      jsLastIndexOf req.baseUrl "/v" = none →
      truthyOptStr req.body.version = false →
      e ≠ "" → cache e = some n →
      getCurrentVersionT req (some e) cache dflt = (.ok ("v" ++ toString n), true)) ∧
    (∀ (req : Request) (e : String) (cache dflt : String → Option Nat) (n : Nat),
      jsLastIndexOf req.baseUrl "/v" = none →
      truthyOptStr req.body.version = false →
      e ≠ "" → cache e = none → dflt e = some n →
      getCurrentVersionT req (some e) cache dflt = (.ok ("v" ++ toString n), true)) := by
  refine ⟨?_, ?_, ?_, ?_⟩
  · intro req endpoint cache dflt i hp
    exact getCurrentVersionT_path req endpoint cache dflt i hp
  · intro req endpoint cache dflt hp hb
    have hbt : truthyOptStr req.body.version = true := by
      rw [hb]; decide
    have h := getCurrentVersionT_body req endpoint cache dflt hp hbt
    rw [h, hb]
    rfl
  · intro req e cache dflt n hp hb he hc
    have h := getCurrentVersionT_cached req e cache dflt hp hb he
    rw [h, hc]
  · intro req e cache dflt n hp hb he hc hd
    have h := getCurrentVersionT_cached req e cache dflt hp hb he
    rw [h, hc, hd]

/-- C3 witness: concrete requests exercising all four precedence layers
(the path token `v1` beats a body version and a cached version; a body
version `2` gives `v2`; cached version 3 gives `v3`; default version 2
gives `v2`). -/
theorem C3_version_precedence_witness :
    (jsLastIndexOf ("/api/v1" : String) "/v" = some 4 ∧
      getCurrentVersionT { baseUrl := "/api/v1", body := { version := some "9" } }
        (some "assistants") (fun _ => some 3) (fun _ => some 2)
        = (.ok (jsSubstring "/api/v1" 5 7), false)) ∧
    (getCurrentVersionT { baseUrl := "/api/agents", body := { version := some "2" } }
        (some "assistants") (fun _ => some 3) (fun _ => some 2)
        = (.ok "v2", false)) ∧
    (getCurrentVersionT { baseUrl := "/api/agents" } (some "endpointX")
        (fun e => if e = "endpointX" then some 3 else none) (fun _ => some 2)
        = (.ok ("v" ++ toString 3), true)) ∧
    (getCurrentVersionT { baseUrl := "/api/agents" } (some "endpointX")
        (fun _ => none) (fun e => if e = "endpointX" then some 2 else none)
        = (.ok ("v" ++ toString 2), true)) := by
  refine ⟨⟨by decide, ?_⟩, ?_, ?_, ?_⟩
  · exact C3_version_precedence.1
      { baseUrl := "/api/v1", body := { version := some "9" } }
      (some "assistants") (fun _ => some 3) (fun _ => some 2) 4 (by decide)
  · exact C3_version_precedence.2.1
      { baseUrl := "/api/agents", body := { version := some "2" } }
      (some "assistants") (fun _ => some 3) (fun _ => some 2) (by decide) rfl
  · exact C3_version_precedence.2.2.1
      { baseUrl := "/api/agents" } "endpointX"
      (fun e => if e = "endpointX" then some 3 else none) (fun _ => some 2) 3
      (by decide) (by decide) (by decide) (by decide)
  · exact C3_version_precedence.2.2.2
      { baseUrl := "/api/agents" } "endpointX"
      (fun _ => none) (fun e => if e = "endpointX" then some 2 else none) 2
      (by decide) (by decide) (by decide) rfl (by decide)

/-- C4: for every Azure configuration on which the fan-out loop succeeds,
the loop initiates exactly one listing call per configured group (all
promises are built by the loop before the merge step consumes any
result), and the merged envelope's data is the concatenation, in group
order, of each group's remapped records, with `has_more` false. -/
theorem C4_fanout_merge (req : Request) (version : String)
    (assistantGroups : List String) (groupMap : String → Option AzureGroup)
    (cache dflt : String → Option Nat)
    (initC initAz : Request → String → InitResult VendorPage)
    (query : FetchQuery)
    (groups : List AzureGroup) (tuples : List (List (String × ModelConfig)))
    (promises : List (Except JsError VendorPage)) (pages : List VendorPage)
    (hloop : azureLoop req version groupMap cache dflt initC initAz query assistantGroups
      = .ok (groups, tuples, promises))
    (hall : promiseAll promises = .ok pages) :
    promises.length = assistantGroups.length ∧
    listAssistantsForAzure req version assistantGroups groupMap cache dflt initC initAz query
      = .ok { first_id := (remapAll pages groups tuples).head?.map Assistant.id,
              last_id := (remapAll pages groups tuples).getLast?.map Assistant.id,
              object := "list",
              has_more := false,
              data := (List.zipWith (fun p gt => p.data.map (remapAssistant gt.1 gt.2))
                pages (groups.zip tuples)).flatten } := by
  have hlen := azureLoop_lengths version groupMap cache dflt initC initAz query
    assistantGroups req groups tuples promises hloop
  refine ⟨hlen.2.2, ?_⟩
  unfold listAssistantsForAzure
  rw [hloop]
  simp only []
  rw [hall]
  simp only []
  rw [remapAll_eq_join]

/-- Concrete Azure request used by the fan-out witnesses: the body names
the cloud-vendor endpoint so each fan-out call resolves a client. -/
def wreq : Request := { baseUrl := "/api/azure/v1", body := { endpoint := some "azureAssistants" } }

/-- First concrete deployment group: default deployment `d1`, models
`gpt-a` on `d1` and `gpt-b` on `d2`. -/
def wg1 : AzureGroup :=
  { deploymentName := some "d1",
    models := [("gpt-a", { deploymentName := some "d1" }),
               ("gpt-b", { deploymentName := some "d2" })] }

/-- Second concrete deployment group: default deployment `d3`, models
`gpt-c` on `d3` and `gpt-d` on `d4`. -/
def wg2 : AzureGroup :=
  { deploymentName := some "d3",
    models := [("gpt-c", { deploymentName := some "d3" }),
               ("gpt-d", { deploymentName := some "d4" })] }

/-- Concrete group map configuring groups `g1` and `g2`. -/
def wmap : String → Option AzureGroup :=
  fun s => if s = "g1" then some wg1 else if s = "g2" then some wg2 else none

/-- Concrete vendor responses, keyed by the model the request body was
mutated to when the call was initiated. -/
def wpage : Option String → VendorPage := fun m =>
  if m = some "gpt-a" then { data := [{ id := "1", model := "d2" }] }
  else if m = some "gpt-c" then
    { data := [{ id := "2", model := "d3" }, { id := "3", model := "zzz" }] }
  else { data := [] }

/-- Concrete initializer whose client answers with the page for the model
currently in the request body. -/
def winit : Request → String → InitResult VendorPage :=
  fun r _ => { openai := { list := fun _ => wpage r.body.model } }

/-- Concrete query object. -/
def wq : FetchQuery := { limit := .num 100, order := .str "desc" }

/-- C4 witness: two groups with two model mappings each; the loop builds
two calls, and the merge is the group-ordered concatenation of both
groups' remapped records with `has_more` false. -/
theorem C4_fanout_merge_witness :
    (azureLoop wreq "v1" wmap (fun _ => none) (fun _ => none) winit winit wq ["g1", "g2"]
      = .ok ([wg1, wg2], [wg1.models, wg2.models],
             [.ok (wpage (some "gpt-a")), .ok (wpage (some "gpt-c"))])) ∧
    (promiseAll [.ok (wpage (some "gpt-a")), .ok (wpage (some "gpt-c"))]
      = .ok [wpage (some "gpt-a"), wpage (some "gpt-c")]) ∧
    (([Except.ok (wpage (some "gpt-a")), .ok (wpage (some "gpt-c"))] :
        List (Except JsError VendorPage)).length = ["g1", "g2"].length ∧
      listAssistantsForAzure wreq "v1" ["g1", "g2"] wmap (fun _ => none) (fun _ => none) winit winit wq
        = .ok { first_id := (remapAll [wpage (some "gpt-a"), wpage (some "gpt-c")]
                  [wg1, wg2] [wg1.models, wg2.models]).head?.map Assistant.id,
                last_id := (remapAll [wpage (some "gpt-a"), wpage (some "gpt-c")]
                  [wg1, wg2] [wg1.models, wg2.models]).getLast?.map Assistant.id,
                object := "list",
                has_more := false,
                data := (List.zipWith (fun p gt => p.data.map (remapAssistant gt.1 gt.2))
                  [wpage (some "gpt-a"), wpage (some "gpt-c")]
                  ([wg1, wg2].zip [wg1.models, wg2.models])).flatten }) :=
  ⟨by decide, by decide,
    C4_fanout_merge wreq "v1" ["g1", "g2"] wmap (fun _ => none) (fun _ => none)
      winit winit wq [wg1, wg2] [wg1.models, wg2.models]
      [.ok (wpage (some "gpt-a")), .ok (wpage (some "gpt-c"))]
      [wpage (some "gpt-a"), wpage (some "gpt-c")] (by decide) (by decide)⟩

/-- C5: remap correctness.  For a group with a nonempty model table (as
guaranteed by the fan-out loop): a record whose raw model equals the
group's default deployment name is remapped to the first configured model
name; otherwise a record matching some table entry's deployment name is
remapped to the first such entry's model name; otherwise it is remapped
to the first model name; and remapping never changes any field but
`model`. -/
theorem C5_remap_correct (grp : AzureGroup) (tuples : List (String × ModelConfig))
    (a : Assistant) (m0 : String) (c0 : ModelConfig)
    (h0 : tuples.head? = some (m0, c0)) :
    (grp.deploymentName = some a.model →
      remapAssistant grp tuples a = { a with model := m0 }) ∧
    (grp.deploymentName ≠ some a.model →
      ∀ m c, tuples.find? (fun t => decide (t.2.deploymentName = some a.model)) = some (m, c) →
        remapAssistant grp tuples a = { a with model := m }) ∧
    (grp.deploymentName ≠ some a.model →
      tuples.find? (fun t => decide (t.2.deploymentName = some a.model)) = none →
        remapAssistant grp tuples a = { a with model := m0 }) ∧
    ((remapAssistant grp tuples a).id = a.id ∧
      (remapAssistant grp tuples a).extra = a.extra) := by
  refine ⟨?_, ?_, ?_, ?_⟩
  · intro hd
    unfold remapAssistant
    rw [h0]
    simp [hd]
  · intro hd m c hf
    unfold remapAssistant
    rw [h0]
    simp [hd, hf]
  · intro hd hf
    unfold remapAssistant
    rw [h0]
    simp [hd, hf]
  · unfold remapAssistant
    cases hh : tuples.head? with
    | none => exact ⟨rfl, rfl⟩
    | some fm =>
      obtain ⟨fmn, fmc⟩ := fm
      by_cases hd : grp.deploymentName = some a.model
      · simp [hd]
      · simp only [hd, if_neg]
        cases hf : tuples.find? (fun t => decide (t.2.deploymentName = some a.model)) with
        | none => simp [hd, hf]
        | some mc => obtain ⟨m, c⟩ := mc; simp [hd, hf]

/-- C5 witness: in group `wg1` (default deployment `d1`, table `gpt-a` on
`d1` and `gpt-b` on `d2`), a record with raw model `d1` maps to `gpt-a`,
one with `d2` maps to `gpt-b`, one with `zzz` falls back to `gpt-a`; ids
and other fields are untouched. -/
theorem C5_remap_correct_witness :
    (wg1.models.head? = some ("gpt-a", { deploymentName := some "d1" }) ∧
      remapAssistant wg1 wg1.models { id := "7", model := "d1", extra := [("k", "w")] }
        = { id := "7", model := "gpt-a", extra := [("k", "w")] }) ∧
    (remapAssistant wg1 wg1.models { id := "8", model := "d2" }
        = { id := "8", model := "gpt-b" }) ∧
    (remapAssistant wg1 wg1.models { id := "9", model := "zzz" }
        = { id := "9", model := "gpt-a" }) :=
  ⟨⟨by decide,
    (C5_remap_correct wg1 wg1.models { id := "7", model := "d1", extra := [("k", "w")] }
      "gpt-a" { deploymentName := some "d1" } (by decide)).1 (by decide)⟩,
    (C5_remap_correct wg1 wg1.models { id := "8", model := "d2" }
      "gpt-a" { deploymentName := some "d1" } (by decide)).2.1 (by decide)
      "gpt-b" { deploymentName := some "d2" } (by decide),
    (C5_remap_correct wg1 wg1.models { id := "9", model := "zzz" }
      "gpt-a" { deploymentName := some "d1" } (by decide)).2.2.1 (by decide) (by decide)⟩

/-- C6: the spec's concrete scenario.  One group `g1` with default
deployment `d1` and models `gpt-a` on `d1`, `gpt-b` on `d2`; the vendor
returns one assistant with id `1` and raw model `d2`; the merged envelope
is exactly `first_id 1, last_id 1, has_more false, object list` with the
single record remapped to `gpt-b`. -/
theorem C6_scenario :
    listAssistantsForAzure
      { baseUrl := "/api/azure/v1", body := { endpoint := some "azureAssistants" } } "v1"
      ["g1"]
      (fun s => if s = "g1" then
        some { deploymentName := some "d1",
               models := [("gpt-a", { deploymentName := some "d1" }),
                          ("gpt-b", { deploymentName := some "d2" })] }
        else none)
      (fun _ => none) (fun _ => none)
      (fun _ _ => { openai := { list := fun _ => { data := [] } } })
      (fun _ _ => { openai := { list := fun _ => { data := [{ id := "1", model := "d2" }] } } })
      { limit := .num 100, order := .str "desc" }
      = .ok { first_id := some "1", last_id := some "1", object := "list",
              has_more := false, data := [{ id := "1", model := "gpt-b" }] } := by
  decide

/-- C10: when every resolved page has an empty data array — in particular
when there are zero groups — the lister returns the envelope without
throwing, with undefined boundary ids, `object` `list`, `has_more` false
and empty data. -/
theorem C10_empty_envelope (req : Request) (version : String)
    (assistantGroups : List String) (groupMap : String → Option AzureGroup)
    (cache dflt : String → Option Nat)
    (initC initAz : Request → String → InitResult VendorPage)
    (query : FetchQuery)
    (groups : List AzureGroup) (tuples : List (List (String × ModelConfig)))
    (promises : List (Except JsError VendorPage)) (pages : List VendorPage)
    (hloop : azureLoop req version groupMap cache dflt initC initAz query assistantGroups
      = .ok (groups, tuples, promises))
    (hall : promiseAll promises = .ok pages)
    (hempty : ∀ p ∈ pages, p.data = []) :
    listAssistantsForAzure req version assistantGroups groupMap cache dflt initC initAz query
      = .ok { first_id := none, last_id := none, object := "list",
              has_more := false, data := [] } := by
  unfold listAssistantsForAzure
  rw [hloop]
  simp only []
  rw [hall]
  simp only []
  rw [remapAll_empty pages groups tuples hempty]
  rfl

/-- C10 witness: zero configured groups make every hypothesis hold with
empty lists, and the lister returns the empty envelope. -/
theorem C10_empty_envelope_witness :
    (azureLoop wreq "v1" wmap (fun _ => none) (fun _ => none) winit winit wq []
      = .ok ([], [], [])) ∧
    promiseAll [] = .ok [] ∧
    listAssistantsForAzure wreq "v1" [] wmap (fun _ => none) (fun _ => none) winit winit wq
      = .ok { first_id := none, last_id := none, object := "list",
              has_more := false, data := [] } :=
  ⟨by decide, by decide,
    C10_empty_envelope wreq "v1" [] wmap (fun _ => none) (fun _ => none) winit winit wq
      [] [] [] [] (by decide) (by decide) (by intro p hp; cases hp)⟩

/-- Reduction of `??` with an absent first operand. -/
theorem jsNullish_none {α : Type} (x : Option α) : jsNullish none x = x := rfl

/-- C7: endpoint identifiers other than the two known ones are a silent
fallthrough, not an error: client resolution returns undefined (`.ok
none`) without throwing, and so does the top-level fetch. -/
theorem C7_unknown_endpoint (req : Request) (overrideEndpoint : Option String)
    (cache dflt : String → Option Nat)
    (assistantGroups : List String) (groupMap : String → Option AzureGroup)
    (initC initAz : Request → String → InitResult VendorPage) (e : String)
    (hne : e ≠ "") (h1 : e ≠ EModelEndpoint.assistants)
    (h2 : e ≠ EModelEndpoint.azureAssistants) :
    (jsNullish overrideEndpoint (jsNullish req.body.endpoint req.query.endpoint) = some e →
      getOpenAIClient req overrideEndpoint cache dflt initC initAz = .ok none) ∧
    (req.query.endpoint = some e →
      fetchAssistants req assistantGroups groupMap cache dflt initC initAz = .ok none) := by
  have hte : truthyOptStr (some e) = true := by
    simp [truthyOptStr, hne]
  constructor
  · intro hep
    obtain ⟨v, b, hv⟩ := getCurrentVersionT_ok_of_truthy req (some e) cache dflt hte
    simp [getOpenAIClient, getOpenAIClientT, hep, hv, hte, h1, h2]
  · intro hqe
    obtain ⟨v, b, hv⟩ := getCurrentVersionT_ok_of_truthy req (some e) cache dflt hte
    have hv1 : getCurrentVersion req (some e) cache dflt = .ok v := by
      simp [getCurrentVersion, hv]
    simp [fetchAssistants, fetchAssistantsT, hqe, hv1, h1, h2]

/-- Concrete request with an unrecognized query endpoint, for the C7
witness. -/
def reqC7 : Request := { baseUrl := "/api/gpts", query := { endpoint := some "gptPlugins" } }

/-- C7 witness: the endpoint `gptPlugins` makes both client resolution and
the top-level fetch return undefined without an error. -/
theorem C7_unknown_endpoint_witness :
    ("gptPlugins" ≠ "" ∧ "gptPlugins" ≠ EModelEndpoint.assistants ∧
      "gptPlugins" ≠ EModelEndpoint.azureAssistants) ∧
    getOpenAIClient reqC7 none (fun _ => none) (fun _ => none) initTrivial initTrivial
      = .ok none ∧
    fetchAssistants reqC7 [] wmap (fun _ => none) (fun _ => none) initTrivial initTrivial
      = .ok none :=
  ⟨⟨by decide, by decide, by decide⟩,
    (C7_unknown_endpoint reqC7 none (fun _ => none) (fun _ => none) [] wmap
      initTrivial initTrivial "gptPlugins" (by decide) (by decide) (by decide)).1 (by decide),
    (C7_unknown_endpoint reqC7 none (fun _ => none) (fun _ => none) [] wmap
      initTrivial initTrivial "gptPlugins" (by decide) (by decide) (by decide)).2 (by decide)⟩

/-- C8 counterexample: `listAssistants` does not force the
direct-provider path.  With the request body naming the cloud-vendor
endpoint, the single list call is served by the client produced by the
azure initializer, not by the direct-provider initializer, and the two
clients respond differently here. -/
theorem C8_counterexample :
    listAssistants
      { baseUrl := "/api/v1", body := { endpoint := some "azureAssistants" } } "v1"
      wq (fun _ => none) (fun _ => none)
      (fun _ _ => { openai := { list :=
        fun _ => ({ data := [{ id := "direct", model := "m" }] } : VendorPage) } })
      (fun _ _ => { openai := { list :=
        fun _ => { data := [{ id := "azure", model := "m" }] } } })
      = .ok { data := [{ id := "azure", model := "m" }] } ∧
    ({ data := [{ id := "azure", model := "m" }] } : VendorPage)
      ≠ { data := [{ id := "direct", model := "m" }] } := by
  exact ⟨by decide, by decide⟩

/-- C8 amended: `listAssistants` passes no endpoint override, so the
endpoint named in the request body or query selects the initializer; the
selected client's list response for the given query is returned verbatim,
and the version handed to the initializer is the recomputed one (the
`version` argument of `listAssistants` is ignored — the conclusion does
not depend on it). -/
theorem C8_client_selection {γ : Type} (req : Request) (version : String)
    (query : FetchQuery) (cache dflt : String → Option Nat)
    (initC initAz : Request → String → InitResult γ) :
    (jsNullish req.body.endpoint req.query.endpoint = some EModelEndpoint.assistants →
      ∃ v, getCurrentVersion req (some EModelEndpoint.assistants) cache dflt = .ok v ∧
        listAssistants req version query cache dflt initC initAz
          = .ok ((initC req v).openai.list query)) ∧
    (jsNullish req.body.endpoint req.query.endpoint = some EModelEndpoint.azureAssistants →
      ∃ v, getCurrentVersion req (some EModelEndpoint.azureAssistants) cache dflt = .ok v ∧
        listAssistants req version query cache dflt initC initAz
          = .ok ((initAz req v).openai.list query)) := by
  constructor
  · intro hep
    have hte : truthyOptStr (some EModelEndpoint.assistants) = true := by decide
    obtain ⟨v, b, hv⟩ :=
      getCurrentVersionT_ok_of_truthy req (some EModelEndpoint.assistants) cache dflt hte
    refine ⟨v, by simp [getCurrentVersion, hv], ?_⟩
    simp [listAssistants, getOpenAIClient, getOpenAIClientT, jsNullish_none, hep, hv, hte]
  · intro hep
    have hte : truthyOptStr (some EModelEndpoint.azureAssistants) = true := by decide
    obtain ⟨v, b, hv⟩ :=
      getCurrentVersionT_ok_of_truthy req (some EModelEndpoint.azureAssistants) cache dflt hte
    refine ⟨v, by simp [getCurrentVersion, hv], ?_⟩
    have hv2 : getCurrentVersionT req (some "azureAssistants") cache dflt = (.ok v, b) := hv
    have hte2 : truthyOptStr (some "azureAssistants") = true := hte
    simp [listAssistants, getOpenAIClient, getOpenAIClientT, jsNullish_none, hep, hv2, hte2,
      EModelEndpoint.assistants, EModelEndpoint.azureAssistants]

/-- Concrete request naming the direct-provider endpoint in its body, for
the C8 witness. -/
def reqC8 : Request := { baseUrl := "/api/v1", body := { endpoint := some "assistants" } }

/-- C8 witness: with the body naming the direct-provider endpoint, the
call is served by the direct initializer's client with the recomputed
version `v1`, whatever version string was passed in. -/
theorem C8_client_selection_witness :
    jsNullish reqC8.body.endpoint reqC8.query.endpoint = some EModelEndpoint.assistants ∧
    ∃ v, getCurrentVersion reqC8 (some EModelEndpoint.assistants)
        (fun _ => none) (fun _ => none) = .ok v ∧
      listAssistants reqC8 "ignored" wq (fun _ => none) (fun _ => none)
        initTrivial initTrivial
        = .ok ((initTrivial reqC8 v).openai.list wq) :=
  ⟨by decide,
    (C8_client_selection reqC8 "ignored" wq (fun _ => none) (fun _ => none)
      initTrivial initTrivial).1 (by decide)⟩

/-- Every branch of the top-level fetch hands the same query object,
built once from the request query, to the downstream call. -/
theorem fetchAssistantsT_query (req : Request)
    (assistantGroups : List String) (groupMap : String → Option AzureGroup)
    (cache dflt : String → Option Nat)
    (initC initAz : Request → String → InitResult VendorPage) :
    (fetchAssistantsT req assistantGroups groupMap cache dflt initC initAz).2
      = fetchQuery req.query := by
  unfold fetchAssistantsT
  dsimp only
  split
  · rfl
  · split
    · split <;> rfl
    · split
      · split <;> rfl
      · rfl

/-- C9: the query object passed downstream defaults `limit` to the number
100 and `order` to the string `desc` when the request query omits them,
passes explicitly supplied values through unchanged, and carries `after`
and `before` through as given (absent when omitted). -/
theorem C9_query_defaults (req : Request)
    (assistantGroups : List String) (groupMap : String → Option AzureGroup)
    (cache dflt : String → Option Nat)
    (initC initAz : Request → String → InitResult VendorPage) :
    (req.query.limit = none →
      (fetchAssistantsT req assistantGroups groupMap cache dflt initC initAz).2.limit
        = .num 100) ∧
    (req.query.order = none →
      (fetchAssistantsT req assistantGroups groupMap cache dflt initC initAz).2.order
        = .str "desc") ∧
    (∀ l, req.query.limit = some l →
      (fetchAssistantsT req assistantGroups groupMap cache dflt initC initAz).2.limit = l) ∧
    (∀ o, req.query.order = some o →
      (fetchAssistantsT req assistantGroups groupMap cache dflt initC initAz).2.order = o) ∧
    (fetchAssistantsT req assistantGroups groupMap cache dflt initC initAz).2.after
      = req.query.after ∧
    (fetchAssistantsT req assistantGroups groupMap cache dflt initC initAz).2.before
      = req.query.before := by
  rw [fetchAssistantsT_query]
  refine ⟨?_, ?_, ?_, ?_, rfl, rfl⟩
  · intro h; simp [fetchQuery, h]
  · intro h; simp [fetchQuery, h]
  · intro l h; simp [fetchQuery, h]
  · intro o h; simp [fetchQuery, h]

/-- Concrete request with an omitted limit and order, for the C9
witness. -/
def reqC9a : Request :=
  { baseUrl := "/api/v1",
    query := { after := some (.str "cur"), endpoint := some "assistants" } }

/-- Concrete request with explicit limit and order, for the C9
witness. -/
def reqC9b : Request :=
  { baseUrl := "/api/v1",
    query := { limit := some (.num 5), order := some (.str "asc"),
               endpoint := some "assistants" } }

/-- C9 witness: omitted limit/order default to 100 and `desc` while
`after` passes through; explicit limit 5 and order `asc` pass through
unchanged. -/
theorem C9_query_defaults_witness :
    ((fetchAssistantsT reqC9a [] wmap (fun _ => none) (fun _ => none)
        initTrivial initTrivial).2.limit = .num 100 ∧
     (fetchAssistantsT reqC9a [] wmap (fun _ => none) (fun _ => none)
        initTrivial initTrivial).2.order = .str "desc" ∧
     (fetchAssistantsT reqC9a [] wmap (fun _ => none) (fun _ => none)
        initTrivial initTrivial).2.after = some (.str "cur")) ∧
    ((fetchAssistantsT reqC9b [] wmap (fun _ => none) (fun _ => none)
        initTrivial initTrivial).2.limit = .num 5 ∧
     (fetchAssistantsT reqC9b [] wmap (fun _ => none) (fun _ => none)
        initTrivial initTrivial).2.order = .str "asc") :=
  ⟨⟨(C9_query_defaults reqC9a [] wmap (fun _ => none) (fun _ => none)
      initTrivial initTrivial).1 rfl,
    (C9_query_defaults reqC9a [] wmap (fun _ => none) (fun _ => none)
      initTrivial initTrivial).2.1 rfl,
    (C9_query_defaults reqC9a [] wmap (fun _ => none) (fun _ => none)
      initTrivial initTrivial).2.2.2.2.1⟩,
   ⟨(C9_query_defaults reqC9b [] wmap (fun _ => none) (fun _ => none)
      initTrivial initTrivial).2.2.1 (.num 5) rfl,
    (C9_query_defaults reqC9b [] wmap (fun _ => none) (fun _ => none)
      initTrivial initTrivial).2.2.2.1 (.str "asc") rfl⟩⟩
